import Mathlib

/-!
A verification development for the NodeDB core of a LoRa mesh firmware
(`src/src/mesh/NodeDB.cpp`).  The C++ source is shallowly embedded: the
process-wide mutable globals (the `devicestate` protobuf record plus the
`channelName`, `activePSK`, `radioGeneration`, `updateGUIforNode` globals and
the externally visible side effects such as `crypto->setKey`,
`powerFSM.trigger` and `notifyObservers`) become one explicit `World` state
record; each C++ function becomes a Lean function from `World` (plus any
inputs) to `World`.  Machine integers are `Nat` with explicit `% 2 ^ 32`
(resp. `% 2 ^ 256`-free byte arithmetic `% 256`) exactly where the C code can
overflow.  The unbounded `while` retry loop of `pickNewNodeNum` is embedded
with explicit fuel and an `Option` result.
-/

/-- `DEVICESTATE_CUR_VER` from NodeDB.cpp line 41. -/
def DEVICESTATE_CUR_VER : Nat := 11

/-- `DEVICESTATE_MIN_VER` from NodeDB.cpp line 42 (equal to the current version). -/
def DEVICESTATE_MIN_VER : Nat := DEVICESTATE_CUR_VER

/-- `NUM_RESERVED` from NodeDB.cpp line 324: low node numbers reserved for future use. -/
def NUM_RESERVED : Nat := 4

/-- Modelled from the spec: the "broadcast sentinel" destination/node number
(`NODENUM_BROADCAST`, defined in the headers missing from `src/` as the
all-ones 32-bit value). -/
def NODENUM_BROADCAST : Nat := 2 ^ 32 - 1

/-- `NUM_ONLINE_SECS` from NodeDB.cpp line 451: `60 * 2` seconds. -/
def NUM_ONLINE_SECS : Nat := 60 * 2

/-- The four named modem presets of the `ChannelSettings_ModemConfig` proto
enum (values as in the generated protobuf code: consecutive from 0). -/
def ModemConfig_Bw125Cr45Sf128 : Nat := 0

def ModemConfig_Bw500Cr45Sf128 : Nat := 1

def ModemConfig_Bw31_25Cr48Sf512 : Nat := 2

def ModemConfig_Bw125Cr48Sf4096 : Nat := 3

/-- `RegionCode_Unset`: proto3 enums start at 0, and the code relies on the
zeroed record carrying the unset region. -/
def RegionCode_Unset : Nat := 0

/-- The 16-byte canonical default PSK, NodeDB.cpp lines 115-116. -/
def defaultpsk : List Nat :=
  [0xd4, 0xf1, 0xbb, 0x3a, 0x20, 0x29, 0x07, 0x59,
   0xf0, 0xbc, 0xff, 0xab, 0xcf, 0x4e, 0x69, 0xbf]

/-- `User` proto record: id / long name / short name strings and the 6-byte MAC. -/
structure User where
  id : String
  long_name : String
  short_name : String
  macaddr : List Nat
  deriving DecidableEq, Repr

/-- `Position` proto record (only the fields NodeDB touches). -/
structure Position where
  time : Nat
  latitude_i : Int
  longitude_i : Int
  deriving DecidableEq, Repr

/-- `NodeInfo` proto record: one peer-table entry. -/
structure NodeInfo where
  num : Nat
  user : User
  has_user : Bool
  position : Position
  has_position : Bool
  snr : Int
  deriving DecidableEq, Repr

/-- `ChannelSettings` proto record.  The PSK is modelled as the byte list of
its first `size` bytes, so `psk.length` is the `psk.size` field. -/
structure ChannelSettings where
  psk : List Nat
  name : String
  modem_config : Nat
  tx_power : Nat
  bandwidth : Nat
  deriving DecidableEq, Repr

/-- The preferences sub-record (only the fields NodeDB touches). -/
structure Prefs where
  region : Nat
  factory_reset : Bool
  screen_on_secs : Nat
  wait_bluetooth_secs : Nat
  position_broadcast_secs : Nat
  ls_secs : Nat
  deriving DecidableEq, Repr

/-- `RadioConfig` proto record. -/
structure RadioConfig where
  has_channel_settings : Bool
  has_preferences : Bool
  channel_settings : ChannelSettings
  preferences : Prefs
  deriving DecidableEq, Repr

/-- `MyNodeInfo` proto record (only the fields NodeDB touches). -/
structure MyNodeInfo where
  my_node_num : Nat
  has_gps : Bool
  region : String
  message_timeout_msec : Nat
  deriving DecidableEq, Repr

/-- `DeviceState`: the root persisted aggregate. -/
structure DeviceState where
  version : Nat
  no_save : Bool
  has_my_node : Bool
  has_radio : Bool
  has_owner : Bool
  receive_queue_count : Nat
  my_node : MyNodeInfo
  radio : RadioConfig
  owner : User
  node_db : List NodeInfo
  deriving DecidableEq, Repr

def zeroUser : User :=
  { id := "", long_name := "", short_name := "", macaddr := List.replicate 6 0 }

def zeroPosition : Position := { time := 0, latitude_i := 0, longitude_i := 0 }

/-- The all-zero `NodeInfo`, as produced by `memset` in `getOrCreateNode`. -/
def zeroNodeInfo : NodeInfo :=
  { num := 0, user := zeroUser, has_user := false, position := zeroPosition,
    has_position := false, snr := 0 }

def zeroChannelSettings : ChannelSettings :=
  { psk := [], name := "", modem_config := 0, tx_power := 0, bandwidth := 0 }

def zeroPrefs : Prefs :=
  { region := 0, factory_reset := false, screen_on_secs := 0,
    wait_bluetooth_secs := 0, position_broadcast_secs := 0, ls_secs := 0 }

def zeroRadioConfig : RadioConfig :=
  { has_channel_settings := false, has_preferences := false,
    channel_settings := zeroChannelSettings, preferences := zeroPrefs }

def zeroMyNodeInfo : MyNodeInfo :=
  { my_node_num := 0, has_gps := false, region := "", message_timeout_msec := 0 }

/-- The all-zero `DeviceState`, as produced by `memset(&devicestate, 0, ...)`. -/
def zeroDeviceState : DeviceState :=
  { version := 0, no_save := false, has_my_node := false, has_radio := false,
    has_owner := false, receive_queue_count := 0, my_node := zeroMyNodeInfo,
    radio := zeroRadioConfig, owner := zeroUser, node_db := [] }

/-- The whole mutable state of NodeDB.cpp: the `devicestate` global plus the
other file-level globals and counters for the externally visible effects
(observer notifications, power-FSM events, plugin dispatches). -/
structure World where
  dev : DeviceState
  ourMacAddr : List Nat
  channelName : String
  activePSK : List Nat
  radioGeneration : Nat
  cryptoKey : List Nat
  updateGUIforNode : Option Nat
  powerEvents : Nat
  notifyCount : Nat
  pluginCalls : Nat
  deriving DecidableEq, Repr

def worldZero : World :=
  { dev := zeroDeviceState, ourMacAddr := List.replicate 6 0, channelName := "",
    activePSK := [], radioGeneration := 0, cryptoKey := [],
    updateGUIforNode := none, powerEvents := 0, notifyCount := 0,
    pluginCalls := 0 }

/-- The external environment: the hardware MAC (`getMacAddr`), the random
oracle behind `random(min, max)` (draw `k` yields `stream k`), and the two
build/header constants NodeDB.cpp reads but whose values live outside `src/`
(`RegionCode_TW` from the proto enum, `FLOOD_EXPIRE_TIME` from
PacketHistory.h). -/
structure Env where
  mac : List Nat
  stream : Nat → Nat
  regionTW : Nat
  floodExpire : Nat

/-- Arduino `random(lo, hi)`: a draw `x` from the oracle mapped into `[lo, hi)`. -/
def randomIn (lo hi x : Nat) : Nat := lo + x % (hi - lo)

/-- `NodeDB::getNode` (NodeDB.cpp lines 553-560): linear scan for the first
entry keyed `n`. -/
def getNode : List NodeInfo → Nat → Option NodeInfo
  | [], _ => none
  | a :: as, n => if a.num = n then some a else getNode as n

/-- Index of the first entry keyed `n` (the "pointer identity" `getNode`
returns in C). -/
def findNodeIdx : List NodeInfo → Nat → Option Nat
  | [], _ => none
  | a :: as, n =>
    if a.num = n then some 0 else (findNodeIdx as n).map (· + 1)

/-- In-place update of entry `i`, the embedding of writing through the
pointer returned by `getNode`/`getOrCreateNode`. -/
def modifyAt : List NodeInfo → Nat → (NodeInfo → NodeInfo) → List NodeInfo
  | [], _, _ => []
  | a :: as, 0, f => f a :: as
  | a :: as, i + 1, f => a :: modifyAt as i f

/-- `NodeDB::getOrCreateNode` (NodeDB.cpp lines 563-578): find the entry, or
append a zeroed entry carrying only the key.  Returns the entry's index
(its identity) together with the updated table. -/
def getOrCreateNode (t : List NodeInfo) (n : Nat) : Nat × List NodeInfo :=
  match findNodeIdx t n with
  | some i => (i, t)
  | none => (t.length, t ++ [{ zeroNodeInfo with num := n }])

/-- `getChannelName` (NodeDB.cpp lines 86-104): the "#name-X" display string.
If the persisted compact key size is not 1, X is a letter from XORing the
bytes of the expanded live key; otherwise X is ASCII `'0'` plus the stored
index byte (byte arithmetic, hence `% 256`). -/
def getChannelName (w : World) : String :=
  let suffix : Nat :=
    if w.dev.radio.channel_settings.psk.length ≠ 1 then
      65 + (w.activePSK.foldl Nat.xor 0) % 26
    else
      (48 + w.dev.radio.channel_settings.psk.headD 0) % 256
  "#" ++ w.channelName ++ "-" ++ String.mk [Char.ofNat suffix]

/-- The `else if (!channelSettings.psk.size)` branch of `resetRadioConfig`
(NodeDB.cpp lines 122-138): install the default channel parameters. -/
def installDefaultChannel (w : World) : World :=
  { w with dev := { w.dev with radio := { w.dev.radio with
      has_channel_settings := true,
      has_preferences := true,
      channel_settings := { w.dev.radio.channel_settings with
        modem_config := ModemConfig_Bw125Cr48Sf4096,
        tx_power := 0,
        psk := [1],
        name := "" } } } }

/-- The tail of `resetRadioConfig` (NodeDB.cpp lines 140-218): legacy name
migration, display-name resolution, legacy full-default-key migration,
compact-key expansion into the live key, `crypto->setKey`, and the
development-mode preference overrides. -/
def resetRadioTail (env : Env) (w : World) : World :=
  let cs0 := w.dev.radio.channel_settings
  let cs1 := if cs0.name = "Default" then { cs0 with name := "" } else cs0
  let chName :=
    if cs1.name ≠ "" then cs1.name
    else if cs1.bandwidth ≠ 0 then "Unset"
    else if cs1.modem_config = ModemConfig_Bw125Cr45Sf128 then "Medium"
    else if cs1.modem_config = ModemConfig_Bw500Cr45Sf128 then "ShortFast"
    else if cs1.modem_config = ModemConfig_Bw31_25Cr48Sf512 then "LongAlt"
    else if cs1.modem_config = ModemConfig_Bw125Cr48Sf4096 then "LongSlow"
    else "Invalid"
  let cs2 := if cs1.psk = defaultpsk then { cs1 with psk := [1] } else cs1
  let active : List Nat :=
    if cs2.psk.length = 1 then
      let v := cs2.psk.headD 0
      if v = 0 then []
      else defaultpsk.take 15 ++ [(0xbf + v - 1) % 256]
    else cs2.psk
  let prefs0 := w.dev.radio.preferences
  let prefs1 :=
    if w.dev.no_save then
      { prefs0 with
        screen_on_secs := 10, wait_bluetooth_secs := 10,
        position_broadcast_secs := 6 * 60, ls_secs := 60,
        region := env.regionTW }
    else prefs0
  { w with
    dev := { w.dev with radio := { w.dev.radio with
      channel_settings := cs2, preferences := prefs1 } },
    channelName := chName,
    activePSK := active,
    cryptoKey := active }

/-- Whether the `while` condition of `pickNewNodeNum` (NodeDB.cpp line 341)
holds for candidate `r`: an entry exists under `r` whose stored MAC differs
from our own. -/
def collides (t : List NodeInfo) (omac : List Nat) (r : Nat) : Bool :=
  match getNode t r with
  | none => false
  | some found => decide (found.user.macaddr ≠ omac)

/-- The retry loop of `pickNewNodeNum` (NodeDB.cpp lines 340-345), with
explicit fuel; draw `k` of the random oracle feeds `random(NUM_RESERVED,
NODENUM_BROADCAST)`.  `none` means the fuel ran out while still colliding. -/
def pickLoop (t : List NodeInfo) (omac : List Nat) (stream : Nat → Nat) :
    Nat → Nat → Nat → Option Nat
  | 0, _, r => if collides t omac r then none else some r
  | fuel + 1, k, r =>
    if collides t omac r then
      pickLoop t omac stream fuel (k + 1)
        (randomIn NUM_RESERVED NODENUM_BROADCAST (stream k))
    else some r

/-- The seed candidate `(mac[2] << 24) | (mac[3] << 16) | (mac[4] << 8) |
mac[5]` (NodeDB.cpp line 335), as a 32-bit value. -/
def macSeed (mac : List Nat) : Nat :=
  (mac.getD 2 0 * 2 ^ 24 + mac.getD 3 0 * 2 ^ 16 +
   mac.getD 4 0 * 2 ^ 8 + mac.getD 5 0) % 2 ^ 32

/-- `NodeDB::pickNewNodeNum` (NodeDB.cpp lines 329-348). -/
def pickNewNodeNum (env : Env) (fuel : Nat) (w : World) : Option World :=
  let r0 := w.dev.my_node.my_node_num
  let r1 := if r0 = 0 then macSeed w.ourMacAddr else r0
  let r2 := if r1 = NODENUM_BROADCAST ∨ r1 < NUM_RESERVED then NUM_RESERVED else r1
  (pickLoop w.dev.node_db w.dev.owner.macaddr env.stream fuel 0 r2).map
    (fun r => { w with dev := { w.dev with
      my_node := { w.dev.my_node with my_node_num := r } } })

/-- Lower-case hex digit. -/
def hexDigit (n : Nat) : Char :=
  if n < 10 then Char.ofNat (48 + n) else Char.ofNat (97 + (n - 10))

/-- Upper-case hex digit. -/
def hexDigitU (n : Nat) : Char :=
  if n < 10 then Char.ofNat (48 + n) else Char.ofNat (65 + (n - 10))

/-- `sprintf("%02x", b)` for a byte. -/
def hex2 (b : Nat) : String := String.mk [hexDigit (b / 16 % 16), hexDigit (b % 16)]

/-- `sprintf("%02X", b)` for a byte. -/
def hex2U (b : Nat) : String := String.mk [hexDigitU (b / 16 % 16), hexDigitU (b % 16)]

/-- The region-restore epilogue of `installDefaultDeviceState` (NodeDB.cpp
lines 260-264): re-install the previously configured region code and region
string when they were set. -/
def restoreRegion (oldCode : Nat) (oldStr : String) (w : World) : World :=
  let w1 :=
    if oldCode ≠ RegionCode_Unset then
      { w with dev := { w.dev with radio := { w.dev.radio with
          preferences := { w.dev.radio.preferences with region := oldCode } } } }
    else w
  if oldStr ≠ "" then
    { w1 with dev := { w1.dev with
        my_node := { w1.dev.my_node with region := oldStr } } }
  else w1

/-- `NodeDB::resetRadioConfig` on a state whose factory-reset flag is clear
(the `else` chain of NodeDB.cpp lines 108-220): bump the radio generation,
install default channel parameters when no key material is present, then run
the migration/derivation tail.  The full function (with the factory-reset
branch) is `resetRadioConfig` below; this one exists because the recursive
call inside `installDefaultDeviceState` always acts on a freshly zeroed
state, whose flag is clear, so there the `else` chain is the branch taken. -/
def resetRadioConfigNoFR (env : Env) (w : World) : World :=
  let w1 := { w with radioGeneration := w.radioGeneration + 1 }
  let w2 :=
    if w.dev.radio.channel_settings.psk.length = 0 then
      installDefaultChannel w1
    else w1
  resetRadioTail env w2

/-- `NodeDB::installDefaultDeviceState` (NodeDB.cpp lines 222-265): remember
the region, zero the root record, set the presence flags, re-run
`resetRadioConfig` (on the zeroed record the factory-reset flag is clear, so
this is exactly `resetRadioConfigNoFR`), fill in the local identity from the
MAC, pick a provisional node number, derive the owner names, and restore the
region.  `none` when the node-number retry loop exhausted its fuel. -/
def installDefaultDeviceState (env : Env) (fuel : Nat) (w : World) : Option World :=
  let oldRegion := w.dev.my_node.region
  let oldRegionCode := w.dev.radio.preferences.region
  let w1 := { w with dev := zeroDeviceState }
  let w2 := { w1 with dev := { w1.dev with
    has_my_node := true, has_radio := true, has_owner := true,
    radio := { w1.dev.radio with
      has_channel_settings := true, has_preferences := true } } }
  let w3 := resetRadioConfigNoFR env w2
  let w4 := { w3 with dev := { w3.dev with
    my_node := { w3.dev.my_node with
      has_gps := false, message_timeout_msec := env.floodExpire } } }
  let w5 := { w4 with ourMacAddr := env.mac }
  let ownerId := "!" ++ String.join ((List.range 6).map
    (fun i => hex2 (env.mac.getD i 0)))
  let w6 := { w5 with dev := { w5.dev with
    owner := { w5.dev.owner with id := ownerId, macaddr := env.mac } } }
  match pickNewNodeNum env fuel w6 with
  | none => none
  | some w7 =>
    let w8 := { w7 with dev := { w7.dev with
      owner := { w7.dev.owner with
        long_name := "Unknown " ++ hex2 (env.mac.getD 4 0) ++
          hex2 (env.mac.getD 5 0),
        short_name := "?" ++ hex2U (w7.dev.my_node.my_node_num % 256) } } }
    some (restoreRegion oldRegionCode oldRegion w8)

/-- `NodeDB::resetRadioConfig` (NodeDB.cpp lines 108-220) in full: on the
factory-reset flag wipe the whole device state and continue with the tail,
otherwise take the `else` chain.  Returns the new state and the
`didFactoryReset` flag. -/
def resetRadioConfig (env : Env) (fuel : Nat) (w : World) : Option (World × Bool) :=
  if w.dev.radio.preferences.factory_reset then
    (installDefaultDeviceState env fuel
        { w with radioGeneration := w.radioGeneration + 1 }).map
      (fun w2 => (resetRadioTail env w2, true))
  else some (resetRadioConfigNoFR env w, false)

/-- The blob stored in the filesystem: an opaque byte list. -/
def Blob : Type := List Nat

/-- The two filesystem slots NodeDB uses: `/db.proto` and `/db.proto.tmp`. -/
structure Fs where
  pref : Option Blob
  tmp : Option Blob

/-- `NodeDB::loadFromDisk` (NodeDB.cpp lines 353-389).  `decode` is the
nanopb `pb_decode` oracle: given the stored blob it yields the record it
wrote over the zeroed `devicestate` plus its success flag. -/
def loadFromDisk (env : Env) (fuel : Nat) (decode : Blob → DeviceState × Bool)
    (fs : Fs) (w : World) : Option World :=
  match fs.pref with
  | none => some w
  | some blob =>
    let d := (decode blob).1
    let ok := (decode blob).2
    let w2 := { w with dev := d }
    if ok = false then installDefaultDeviceState env fuel w2
    else if d.version < DEVICESTATE_MIN_VER then
      installDefaultDeviceState env fuel w2
    else some w2

/-- The version stamp `devicestate.version = DEVICESTATE_CUR_VER` performed
by `saveToDisk` before encoding. -/
def stampVersion (w : World) : World :=
  { w with dev := { w.dev with version := DEVICESTATE_CUR_VER } }

/-- `NodeDB::saveToDisk` (NodeDB.cpp lines 391-428).  `encode` is the nanopb
`pb_encode` oracle; `junk` is whatever partial output a failed encode left in
the freshly opened temporary file.  On the development no-save flag nothing
is touched; on encode failure only the temporary slot holds the aborted
write; on success the old file is removed and the temporary renamed over it. -/
def saveToDisk (encode : DeviceState → Option Blob) (junk : Blob) (w : World)
    (fs : Fs) : World × Fs :=
  if w.dev.no_save then (w, fs)
  else
    let w1 := stampVersion w
    match encode w1.dev with
    | none => (w1, { fs with tmp := some junk })
    | some b => (w1, { pref := some b, tmp := none })

/-- `sinceLastSeen` (NodeDB.cpp lines 439-449): 32-bit `now - position.time`,
cast to a signed 32-bit int, negative clamped to zero. -/
def sinceLastSeen (now : Nat) (n : NodeInfo) : Nat :=
  let diff := (now % 2 ^ 32 + 2 ^ 32 - n.position.time % 2 ^ 32) % 2 ^ 32
  if diff < 2 ^ 31 then diff else 0

/-- `NodeDB::getNumOnlineNodes` (NodeDB.cpp lines 453-463). -/
def getNumOnlineNodes (now : Nat) (t : List NodeInfo) : Nat :=
  (t.filter (fun n => sinceLastSeen now n < NUM_ONLINE_SECS)).length

/-- `NodeDB::updatePosition` (NodeDB.cpp lines 469-479): upsert, overwrite
position, set the GUI-refresh record, notify observers unconditionally. -/
def updatePosition (w : World) (nodeId : Nat) (p : Position) : World :=
  let g := getOrCreateNode w.dev.node_db nodeId
  let t1 := modifyAt g.2 g.1
    (fun info => { info with position := p, has_position := true })
  { w with
    dev := { w.dev with node_db := t1 },
    updateGUIforNode := some nodeId,
    notifyCount := w.notifyCount + 1 }

/-- `NodeDB::updateUser` (NodeDB.cpp lines 483-505): upsert, byte-compare the
stored user against the new payload, overwrite regardless, and only on a
genuine change set the GUI-refresh record, trigger the power-FSM event and
notify observers. -/
def updateUser (w : World) (nodeId : Nat) (p : User) : World :=
  let g := getOrCreateNode w.dev.node_db nodeId
  let stored := (g.2.get? g.1).getD zeroNodeInfo
  let t1 := modifyAt g.2 g.1
    (fun info => { info with user := p, has_user := true })
  let w1 := { w with dev := { w.dev with node_db := t1 } }
  if stored.user = p then w1
  else
    { w1 with
      updateGUIforNode := some nodeId,
      powerEvents := w1.powerEvents + 1,
      notifyCount := w1.notifyCount + 1 }

/-- The payload alternatives of a decoded `SubPacket`. -/
inductive SubPayload where
  | position (p : Position)
  | data
  | user (u : User)
  | other
  deriving DecidableEq, Repr

/-- A mesh packet as seen by `updateFrom`: sender, destination, receive
timestamp, link quality, and the decoded payload (`none` when the packet was
not decoded, i.e. `which_payload` is not the decoded tag). -/
structure MeshPacket where
  fromNum : Nat
  toNum : Nat
  rx_time : Nat
  rx_snr : Int
  payload : Option SubPayload
  deriving DecidableEq, Repr

/-- The first half of `updateFrom` (NodeDB.cpp lines 515-522): upsert the
sender's record, mark the last-seen time from a nonzero receive timestamp,
and record the SNR. -/
def upsertSender (w : World) (mp : MeshPacket) : World :=
  let g := getOrCreateNode w.dev.node_db mp.fromNum
  let t1 :=
    if mp.rx_time ≠ 0 then
      modifyAt g.2 g.1 (fun info =>
        { info with
          has_position := true,
          position := { info.position with time := mp.rx_time } })
    else g.2
  let t2 := modifyAt t1 g.1 (fun info => { info with snr := mp.rx_snr })
  { w with dev := { w.dev with node_db := t2 } }

/-- `NodeDB::updateFrom` (NodeDB.cpp lines 509-549): for a decoded packet,
upsert the sender, record last-seen time from a nonzero receive timestamp,
record the SNR, and dispatch on the payload kind: legacy position and user
payloads route to their update operations, data payloads addressed to
broadcast or to us go to the plugins, anything else notifies observers. -/
def updateFrom (w : World) (mp : MeshPacket) : World :=
  match mp.payload with
  | none => w
  | some p =>
    let w1 := upsertSender w mp
    match p with
    | SubPayload.position pos => updatePosition w1 mp.fromNum pos
    | SubPayload.data =>
      if mp.toNum = NODENUM_BROADCAST ∨ mp.toNum = w1.dev.my_node.my_node_num
      then { w1 with pluginCalls := w1.pluginCalls + 1 }
      else w1
    | SubPayload.user u => updateUser w1 mp.fromNum u
    | SubPayload.other => { w1 with notifyCount := w1.notifyCount + 1 }

/-! ### Spec-side definitions

These follow the words of the specification / claims and are compared with
the source-side functions above. -/

/-- The claim's description of `getChannelName`: the fixed-form string with
the letter suffix for non-compact keys and the digit suffix for a stored
compact index. -/
def channelNameSpec (w : World) : String :=
  if w.dev.radio.channel_settings.psk.length ≠ 1 then
    "#" ++ w.channelName ++ "-" ++
      String.mk [Char.ofNat (65 + (w.activePSK.foldl Nat.xor 0) % 26)]
  else
    "#" ++ w.channelName ++ "-" ++
      String.mk [Char.ofNat ((48 + w.dev.radio.channel_settings.psk.headD 0) % 256)]

/-- The claim's liveness formula taken literally over the integers:
`max(0, now - position.timestamp) < 120`. -/
def specOnlineCount (now : Nat) (t : List NodeInfo) : Nat :=
  (t.filter (fun r => max 0 ((now : Int) - (r.position.time : Int)) < 120)).length

/-- The amended liveness formula: the wrapped 32-bit difference reinterpreted
as a signed 32-bit value, clamped below at zero. -/
def sinceLastSeenSpec (now time : Nat) : Int :=
  let diff : Nat := (now % 2 ^ 32 + 2 ^ 32 - time % 2 ^ 32) % 2 ^ 32
  max 0 (if diff < 2 ^ 31 then (diff : Int) else (diff : Int) - 2 ^ 32)

/-- The peer-key invariant of the claim: no entry is keyed 0 or broadcast. -/
def validTable (t : List NodeInfo) : Prop :=
  ∀ r ∈ t, r.num ≠ 0 ∧ r.num ≠ NODENUM_BROADCAST

instance (t : List NodeInfo) : Decidable (validTable t) := by
  unfold validTable; infer_instance

/-! ### Table lemmas -/

theorem findNodeIdx_append_self (t : List NodeInfo) (n : Nat) (x : NodeInfo)
    (h : findNodeIdx t n = none) (hx : x.num = n) :
    findNodeIdx (t ++ [x]) n = some t.length := by
  induction t with
  | nil => simp [findNodeIdx, hx]
  | cons a as ih =>
    simp only [findNodeIdx] at h ⊢
    by_cases ha : a.num = n
    · simp [ha] at h
    · simp only [ha, if_false] at h ⊢
      cases hj : findNodeIdx as n with
      | some j => simp [hj] at h
      | none => simp [ih hj]

theorem goc_findNodeIdx (t : List NodeInfo) (n : Nat) :
    findNodeIdx (getOrCreateNode t n).2 n = some (getOrCreateNode t n).1 := by
  unfold getOrCreateNode
  cases h : findNodeIdx t n with
  | some i => simp [h]
  | none =>
    simp only [h]
    exact findNodeIdx_append_self t n { zeroNodeInfo with num := n } h rfl

theorem findNodeIdx_get? (t : List NodeInfo) (n : Nat) (i : Nat)
    (h : findNodeIdx t n = some i) :
    ∃ e, t.get? i = some e ∧ e.num = n := by
  induction t generalizing i with
  | nil => simp [findNodeIdx] at h
  | cons a as ih =>
    simp only [findNodeIdx] at h
    by_cases ha : a.num = n
    · simp [ha] at h; subst h; exact ⟨a, rfl, ha⟩
    · simp only [ha, if_false] at h
      cases hj : findNodeIdx as n with
      | none => simp [hj] at h
      | some j =>
        simp [hj] at h
        subst h
        obtain ⟨e, he, hen⟩ := ih j hj
        exact ⟨e, he, hen⟩

theorem getNode_eq_bind (t : List NodeInfo) (n : Nat) :
    getNode t n = (findNodeIdx t n).bind (fun i => t.get? i) := by
  induction t with
  | nil => rfl
  | cons a as ih =>
    simp only [getNode, findNodeIdx]
    by_cases ha : a.num = n
    · simp [ha]
    · simp only [ha, if_false, ih]
      cases hj : findNodeIdx as n with
      | none => simp
      | some j => simp

theorem modifyAt_length (t : List NodeInfo) (i : Nat) (f : NodeInfo → NodeInfo) :
    (modifyAt t i f).length = t.length := by
  induction t generalizing i with
  | nil => rfl
  | cons a as ih =>
    cases i with
    | zero => simp [modifyAt]
    | succ j => simp [modifyAt, ih]

theorem modifyAt_get?_self (t : List NodeInfo) (i : Nat) (f : NodeInfo → NodeInfo) :
    (modifyAt t i f).get? i = (t.get? i).map f := by
  induction t generalizing i with
  | nil => rfl
  | cons a as ih =>
    cases i with
    | zero => rfl
    | succ j => simpa [modifyAt] using ih j

theorem findNodeIdx_modifyAt (t : List NodeInfo) (i : Nat)
    (f : NodeInfo → NodeInfo) (n : Nat) (hf : ∀ a, (f a).num = a.num) :
    findNodeIdx (modifyAt t i f) n = findNodeIdx t n := by
  induction t generalizing i with
  | nil => rfl
  | cons a as ih =>
    cases i with
    | zero => simp [modifyAt, findNodeIdx, hf a]
    | succ j => simp [modifyAt, findNodeIdx, ih j]

/-! ### Concrete example inputs used by witnesses and counterexamples -/

/-- A concrete environment. -/
def envEx : Env :=
  { mac := [0x11, 0x22, 0x33, 0x44, 0x55, 0x66], stream := fun _ => 0,
    regionTW := 8, floodExpire := 0 }

/-- A concrete filesystem state holding a previous persisted file. -/
def fsEx : Fs := { pref := some [1, 2, 3], tmp := none }

/-! ### C1: saveToDisk -/

/-- C1.  With the no-persist flag clear, `saveToDisk` stamps the current
schema version into the record; when serialization succeeds the previous
persisted file is removed and the temporary renamed into its place (the
persisted slot holds exactly the new blob and the temporary slot is empty);
when serialization fails the previously persisted file is untouched.  With
the no-persist flag set, `saveToDisk` changes neither the state nor the
filesystem. -/
theorem c1_saveToDisk (encode : DeviceState → Option Blob) (junk : Blob)
    (w : World) (fs : Fs) :
    (w.dev.no_save = true → saveToDisk encode junk w fs = (w, fs)) ∧
    (w.dev.no_save = false →
      (saveToDisk encode junk w fs).1 = stampVersion w ∧
      (saveToDisk encode junk w fs).1.dev.version = DEVICESTATE_CUR_VER ∧
      (∀ b, encode (stampVersion w).dev = some b →
        (saveToDisk encode junk w fs).2 = { pref := some b, tmp := none }) ∧
      (encode (stampVersion w).dev = none →
        (saveToDisk encode junk w fs).2.pref = fs.pref)) := by
  unfold saveToDisk
  cases h : w.dev.no_save with
  | true => simp [h]
  | false =>
    simp only [h, Bool.false_eq_true, if_false]
    refine ⟨fun hc => hc.elim, fun _ => ?_⟩
    cases henc : encode (stampVersion w).dev with
    | none => simp [henc, stampVersion]
    | some b => simp [henc, stampVersion]

/-- Witness for C1 at concrete inputs: both a successful encode replacing
the persisted file and a failing encode leaving it untouched. -/
theorem c1_saveToDisk_witness :
    (saveToDisk (fun _ => some [7]) [] worldZero fsEx).2 =
      { pref := some [7], tmp := none } ∧
    (saveToDisk (fun _ => none) [9] worldZero fsEx).2.pref = fsEx.pref :=
  ⟨((c1_saveToDisk (fun _ => some [7]) [] worldZero fsEx).2 rfl).2.2.1 [7] rfl,
   ((c1_saveToDisk (fun _ => none) [9] worldZero fsEx).2 rfl).2.2.2 rfl⟩

/-! ### C7: getOrCreateNode idempotence -/

/-- C7.  `getOrCreateNode` is idempotent: a second call with the same key
returns the same index (the same record identity) and the very same table,
so occupancy is unchanged after the first call; and when the key is already
present the first call creates nothing. -/
theorem c7_getOrCreateNode_idem (t : List NodeInfo) (n : Nat) :
    getOrCreateNode (getOrCreateNode t n).2 n = getOrCreateNode t n ∧
    (getOrCreateNode (getOrCreateNode t n).2 n).2.length =
      (getOrCreateNode t n).2.length ∧
    (findNodeIdx t n ≠ none → (getOrCreateNode t n).2 = t) := by
  have hfind := goc_findNodeIdx t n
  constructor
  · conv_lhs => rw [getOrCreateNode, hfind]
  · constructor
    · conv_lhs => rw [getOrCreateNode, hfind]
    · intro h
      unfold getOrCreateNode
      cases hf : findNodeIdx t n with
      | some i => simp
      | none => exact absurd hf h

/-- Witness for C7 at a concrete table already holding the key. -/
theorem c7_getOrCreateNode_idem_witness :
    (getOrCreateNode [{ zeroNodeInfo with num := 5 }] 5).2 =
      [{ zeroNodeInfo with num := 5 }] :=
  (c7_getOrCreateNode_idem [{ zeroNodeInfo with num := 5 }] 5).2.2 (by decide)

/-! ### C4: getChannelName -/

/-- C4.  `getChannelName` returns exactly the fixed-form string of the
claim (`channelNameSpec`, which XORs the expanded live key into a base-26
letter when the persisted compact key size is not 1 and uses the digit
character of the stored index otherwise); the letter suffix lies in
'A'..'Z'.  The function is pure, so repeated calls on unchanged state
return the same string and mutate nothing. -/
theorem c4_getChannelName (w : World) :
    getChannelName w = channelNameSpec w ∧
    (w.dev.radio.channel_settings.psk.length ≠ 1 →
      ∃ k, k ≤ 25 ∧
        getChannelName w =
          "#" ++ w.channelName ++ "-" ++ String.mk [Char.ofNat (65 + k)]) := by
  constructor
  · unfold getChannelName channelNameSpec
    by_cases h : w.dev.radio.channel_settings.psk.length = 1 <;> simp [h]
  · intro h
    refine ⟨(w.activePSK.foldl Nat.xor 0) % 26, Nat.lt_succ_iff.mp (Nat.mod_lt _ (by norm_num)), ?_⟩
    unfold getChannelName
    simp [h]

/-- Witness for C4 at a concrete state with a 16-byte live key. -/
theorem c4_getChannelName_witness :
    getChannelName { worldZero with channelName := "LongSlow", activePSK := defaultpsk } =
      channelNameSpec { worldZero with channelName := "LongSlow", activePSK := defaultpsk } ∧
    ∃ k, k ≤ 25 ∧
      getChannelName { worldZero with channelName := "LongSlow", activePSK := defaultpsk } =
        "#" ++ "LongSlow" ++ "-" ++ String.mk [Char.ofNat (65 + k)] :=
  ⟨(c4_getChannelName _).1, (c4_getChannelName _).2 (by decide)⟩

/-! ### C3: compact PSK expansion -/

/-- The live key produced by the tail of `resetRadioConfig`, as a function
of the stored PSK alone (the legacy-name migration does not touch the key;
the full-default-key migration folds into one conditional). -/
theorem resetRadioTail_activePSK (env : Env) (w : World) :
    (resetRadioTail env w).activePSK =
      (if (if w.dev.radio.channel_settings.psk = defaultpsk then ([1] : List Nat)
            else w.dev.radio.channel_settings.psk).length = 1 then
         (if (if w.dev.radio.channel_settings.psk = defaultpsk then ([1] : List Nat)
              else w.dev.radio.channel_settings.psk).headD 0 = 0 then []
          else defaultpsk.take 15 ++
            [(0xbf + (if w.dev.radio.channel_settings.psk = defaultpsk then ([1] : List Nat)
                      else w.dev.radio.channel_settings.psk).headD 0 - 1) % 256])
       else (if w.dev.radio.channel_settings.psk = defaultpsk then ([1] : List Nat)
             else w.dev.radio.channel_settings.psk)) := by
  unfold resetRadioTail
  by_cases hn : w.dev.radio.channel_settings.name = "Default" <;>
    by_cases hd : w.dev.radio.channel_settings.psk = defaultpsk <;>
      simp [hn, hd]

/-- The live key produced by the non-factory-reset branch of
`resetRadioConfig`, when key material is present (so the default-channel
install is skipped). -/
theorem resetRadioConfigNoFR_activePSK (env : Env) (w : World)
    (h0 : w.dev.radio.channel_settings.psk.length ≠ 0) :
    (resetRadioConfigNoFR env w).activePSK =
      (if (if w.dev.radio.channel_settings.psk = defaultpsk then ([1] : List Nat)
            else w.dev.radio.channel_settings.psk).length = 1 then
         (if (if w.dev.radio.channel_settings.psk = defaultpsk then ([1] : List Nat)
              else w.dev.radio.channel_settings.psk).headD 0 = 0 then []
          else defaultpsk.take 15 ++
            [(0xbf + (if w.dev.radio.channel_settings.psk = defaultpsk then ([1] : List Nat)
                      else w.dev.radio.channel_settings.psk).headD 0 - 1) % 256])
       else (if w.dev.radio.channel_settings.psk = defaultpsk then ([1] : List Nat)
             else w.dev.radio.channel_settings.psk)) := by
  show (resetRadioTail env (if w.dev.radio.channel_settings.psk.length = 0
      then installDefaultChannel { w with radioGeneration := w.radioGeneration + 1 }
      else { w with radioGeneration := w.radioGeneration + 1 })).activePSK = _
  rw [if_neg h0, resetRadioTail_activePSK]

/-- A concrete state holding a stored compact PSK `[5]`. -/
def wPsk5 : World :=
  { worldZero with dev := { zeroDeviceState with
      radio := { zeroRadioConfig with channel_settings :=
        { zeroChannelSettings with psk := [5] } } } }

/-- C3 (amended).  In `resetRadioConfig` with the factory-reset flag clear:
a stored compact PSK `[0]` expands to the zero-length live key; `[v]` with
`v ≥ 1` expands to the canonical 16-byte default key with only its final
byte offset by `(v - 1) mod 256` (so `[1]` gives the default key
unchanged); a stored key of any other nonzero size becomes the live key
verbatim.  (A size-0 stored key is not used verbatim: it first triggers the
default-channel installation, see the counterexample.) -/
theorem c3_pskExpansion (env : Env) (fuel : Nat) (w : World) (res : World × Bool)
    (hfr : w.dev.radio.preferences.factory_reset = false)
    (h : resetRadioConfig env fuel w = some res) :
    (w.dev.radio.channel_settings.psk = [0] → res.1.activePSK = []) ∧
    (∀ v, w.dev.radio.channel_settings.psk = [v] → 1 ≤ v →
      res.1.activePSK = defaultpsk.take 15 ++ [(0xbf + (v - 1)) % 256] ∧
      res.1.activePSK.length = 16) ∧
    (w.dev.radio.channel_settings.psk = [1] → res.1.activePSK = defaultpsk) ∧
    (w.dev.radio.channel_settings.psk.length ≠ 1 →
      w.dev.radio.channel_settings.psk.length ≠ 0 →
      res.1.activePSK = w.dev.radio.channel_settings.psk) := by
  rw [resetRadioConfig] at h
  simp only [hfr, Bool.false_eq_true, if_false, Option.some_inj] at h
  subst h
  refine ⟨?_, ?_, ?_, ?_⟩
  · intro hpsk
    rw [resetRadioConfigNoFR_activePSK env w (by rw [hpsk]; simp)]
    simp [hpsk, defaultpsk]
  · intro v hpsk hv
    have hne : ([v] : List Nat) ≠ defaultpsk := by
      intro heq; exact absurd (congrArg List.length heq) (by simp [defaultpsk])
    have hv0 : v ≠ 0 := by omega
    have harith : 0xbf + v - 1 = 0xbf + (v - 1) := by omega
    constructor
    · rw [resetRadioConfigNoFR_activePSK env w (by rw [hpsk]; simp)]
      simp [hpsk, hne, hv0, harith]
    · rw [resetRadioConfigNoFR_activePSK env w (by rw [hpsk]; simp)]
      simp [hpsk, hne, hv0, defaultpsk]
  · intro hpsk
    have hne : ([1] : List Nat) ≠ defaultpsk := by
      intro heq; exact absurd (congrArg List.length heq) (by simp [defaultpsk])
    rw [resetRadioConfigNoFR_activePSK env w (by rw [hpsk]; simp)]
    rw [hpsk, if_neg hne]
    decide
  · intro h1 h0
    by_cases hd : w.dev.radio.channel_settings.psk = defaultpsk
    · rw [resetRadioConfigNoFR_activePSK env w h0]
      rw [if_pos hd, hd]
      decide
    · rw [resetRadioConfigNoFR_activePSK env w h0]
      rw [if_neg hd, if_neg h1]

/-- Counterexample for C3 as stated: a stored key of size 0 (a size other
than 1) is not used verbatim — the default channel install turns it into
compact index 1 and the live key becomes the 16-byte default key; likewise
with the factory-reset flag set a stored `[0]` does not yield a zero-length
live key. -/
theorem c3_counterexample :
    (resetRadioConfig envEx 0 worldZero).map (fun r => r.1.activePSK) =
      some defaultpsk ∧
    some worldZero.dev.radio.channel_settings.psk ≠ some defaultpsk ∧
    (resetRadioConfig envEx 1
        { worldZero with dev := { zeroDeviceState with
          radio := { zeroRadioConfig with
            preferences := { zeroPrefs with factory_reset := true },
            channel_settings := { zeroChannelSettings with psk := [0] } } } }).map
        (fun r => r.1.activePSK) = some defaultpsk := by
  refine ⟨by rfl, by decide, by rfl⟩

/-- Witness for C3 at the concrete stored compact PSK `[5]`. -/
theorem c3_pskExpansion_witness :
    wPsk5.dev.radio.preferences.factory_reset = false ∧
    ∃ res, resetRadioConfig envEx 0 wPsk5 = some res ∧
      res.1.activePSK = defaultpsk.take 15 ++ [(0xbf + (5 - 1)) % 256] :=
  ⟨rfl, ⟨_, rfl,
    ((c3_pskExpansion envEx 0 wPsk5 _ rfl rfl).2.1 5 rfl (by norm_num)).1⟩⟩

/-! ### C5: pickNewNodeNum -/

/-- Any number the retry loop returns is either its starting candidate or a
draw of `random(NUM_RESERVED, NODENUM_BROADCAST)`. -/
theorem pickLoop_out (t : List NodeInfo) (omac : List Nat) (stream : Nat → Nat) :
    ∀ fuel k r out, pickLoop t omac stream fuel k r = some out →
      out = r ∨ ∃ x, out = randomIn NUM_RESERVED NODENUM_BROADCAST x := by
  intro fuel
  induction fuel with
  | zero =>
    intro k r out h
    rw [pickLoop] at h
    by_cases hc : collides t omac r
    · simp [hc] at h
    · simp [hc] at h; exact Or.inl h.symm
  | succ f ih =>
    intro k r out h
    rw [pickLoop] at h
    by_cases hc : collides t omac r
    · simp only [hc, if_true] at h
      rcases ih (k + 1) _ out h with h1 | h2
      · exact Or.inr ⟨stream k, h1⟩
      · exact Or.inr h2
    · simp [hc] at h; exact Or.inl h.symm

/-- A draw of `random(NUM_RESERVED, NODENUM_BROADCAST)` is at least
`NUM_RESERVED` and strictly below the broadcast sentinel. -/
theorem randomIn_bounds (x : Nat) :
    NUM_RESERVED ≤ randomIn NUM_RESERVED NODENUM_BROADCAST x ∧
      randomIn NUM_RESERVED NODENUM_BROADCAST x < NODENUM_BROADCAST := by
  unfold randomIn NUM_RESERVED NODENUM_BROADCAST
  constructor
  · omega
  · have : x % (2 ^ 32 - 1 - 4) < 2 ^ 32 - 1 - 4 := Nat.mod_lt _ (by norm_num)
    omega

/-- If the candidate is uncontested the loop accepts it at once, whatever
the fuel. -/
theorem pickLoop_noCollision (t : List NodeInfo) (omac : List Nat)
    (stream : Nat → Nat) (fuel k r : Nat)
    (h : collides t omac r = false) :
    pickLoop t omac stream fuel k r = some r := by
  cases fuel <;> rw [pickLoop] <;> simp [h]

/-- C5 (amended).  Whenever `pickNewNodeNum` stores a node number, that
number is neither the broadcast sentinel nor in the reserved low range; and
the retry loop accepts immediately (for any fuel) once a candidate is
uncontested — but there is no a-priori retry bound: with a colliding
catalog and an adversarial random stream the loop never terminates (see the
counterexample). -/
theorem c5_pickNewNodeNum (env : Env) (fuel : Nat) (w w2 : World)
    (h : pickNewNodeNum env fuel w = some w2) :
    w2.dev.my_node.my_node_num ≠ NODENUM_BROADCAST ∧
    NUM_RESERVED ≤ w2.dev.my_node.my_node_num ∧
    (∀ k r, collides w.dev.node_db w.dev.owner.macaddr r = false →
      pickLoop w.dev.node_db w.dev.owner.macaddr env.stream fuel k r = some r) := by
  refine ⟨?_, ?_, fun k r hr => pickLoop_noCollision _ _ _ fuel k r hr⟩ <;>
  · rw [pickNewNodeNum] at h
    cases hout : pickLoop w.dev.node_db w.dev.owner.macaddr env.stream fuel 0
      (if (if w.dev.my_node.my_node_num = 0 then macSeed w.ourMacAddr
           else w.dev.my_node.my_node_num) = NODENUM_BROADCAST ∨
          (if w.dev.my_node.my_node_num = 0 then macSeed w.ourMacAddr
           else w.dev.my_node.my_node_num) < NUM_RESERVED
       then NUM_RESERVED
       else (if w.dev.my_node.my_node_num = 0 then macSeed w.ourMacAddr
             else w.dev.my_node.my_node_num)) with
    | none => rw [hout] at h; simp at h
    | some out =>
      rw [hout, Option.map_some'] at h
      injection h with h
      subst h
      simp only
      rcases pickLoop_out _ _ _ fuel 0 _ out hout with h1 | ⟨x, h2⟩
      · subst h1
        by_cases hcl : (if w.dev.my_node.my_node_num = 0 then macSeed w.ourMacAddr
            else w.dev.my_node.my_node_num) = NODENUM_BROADCAST ∨
            (if w.dev.my_node.my_node_num = 0 then macSeed w.ourMacAddr
            else w.dev.my_node.my_node_num) < NUM_RESERVED
        · rw [if_pos hcl]
          all_goals decide
        · rw [if_neg hcl]
          push_neg at hcl
          first
          | exact hcl.1
          | exact hcl.2
      · subst h2
        rcases randomIn_bounds x with ⟨hb1, hb2⟩
        first
        | exact Nat.ne_of_lt hb2
        | exact hb1

/-- A one-entry catalog occupying number 4 under a foreign MAC, and a state
whose stored node number is that same 4. -/
def wCollide : World :=
  { worldZero with dev := { zeroDeviceState with
      my_node := { zeroMyNodeInfo with my_node_num := 4 },
      node_db := [{ zeroNodeInfo with
        num := 4,
        user := { zeroUser with macaddr := [1, 0, 0, 0, 0, 0] } }] } }

/-- An environment whose random oracle always returns draw 0, so
`random(NUM_RESERVED, NODENUM_BROADCAST)` always yields 4 again. -/
def envCollide : Env :=
  { mac := [0, 0, 0, 0, 0, 0], stream := fun _ => 0, regionTW := 8,
    floodExpire := 0 }

theorem pickLoop_collide_none :
    ∀ fuel k, pickLoop wCollide.dev.node_db wCollide.dev.owner.macaddr
      envCollide.stream fuel k 4 = none := by
  intro fuel
  induction fuel with
  | zero => intro k; rw [pickLoop]; decide
  | succ f ih =>
    intro k
    rw [pickLoop]
    rw [if_pos (show collides wCollide.dev.node_db wCollide.dev.owner.macaddr 4 = true
      from by decide)]
    rw [show randomIn NUM_RESERVED NODENUM_BROADCAST (envCollide.stream k) = 4
      from by simp [envCollide, randomIn, NUM_RESERVED]]
    exact ih (k + 1)

/-- Counterexample for the bounded-termination half of C5: with the catalog
pre-populated by a colliding entry (same number, different MAC) and the
random oracle always drawing the same taken number, no amount of fuel makes
`pickNewNodeNum` terminate — the retry count is not bounded. -/
theorem c5_counterexample :
    ¬ ∃ fuel w2, pickNewNodeNum envCollide fuel wCollide = some w2 := by
  rintro ⟨fuel, w2, h⟩
  rw [pickNewNodeNum] at h
  rw [show (if (if wCollide.dev.my_node.my_node_num = 0
        then macSeed wCollide.ourMacAddr else wCollide.dev.my_node.my_node_num) =
          NODENUM_BROADCAST ∨
        (if wCollide.dev.my_node.my_node_num = 0
        then macSeed wCollide.ourMacAddr else wCollide.dev.my_node.my_node_num) <
          NUM_RESERVED
      then NUM_RESERVED
      else (if wCollide.dev.my_node.my_node_num = 0
        then macSeed wCollide.ourMacAddr
        else wCollide.dev.my_node.my_node_num)) = 4 from by decide] at h
  rw [pickLoop_collide_none fuel 0] at h
  simp at h

/-- Witness for C5 at a concrete uncontested state: the MAC-derived
candidate is accepted and is neither broadcast nor reserved. -/
theorem c5_pickNewNodeNum_witness :
    ∃ w2, pickNewNodeNum envEx 0 { worldZero with ourMacAddr := envEx.mac } = some w2 ∧
      w2.dev.my_node.my_node_num ≠ NODENUM_BROADCAST ∧
      NUM_RESERVED ≤ w2.dev.my_node.my_node_num :=
  ⟨_, rfl,
    (c5_pickNewNodeNum envEx 0 { worldZero with ourMacAddr := envEx.mac } _ rfl).1,
    (c5_pickNewNodeNum envEx 0 { worldZero with ourMacAddr := envEx.mac } _ rfl).2.1⟩

/-! ### C6: updateUser change detection -/

/-- The table after `updateUser` is the upserted table with the keyed entry
overwritten, whichever branch the change detection took. -/
theorem updateUser_node_db (w : World) (n : Nat) (u : User) :
    (updateUser w n u).dev.node_db =
      modifyAt (getOrCreateNode w.dev.node_db n).2
        (getOrCreateNode w.dev.node_db n).1
        (fun info => { info with user := u, has_user := true }) := by
  simp only [updateUser]
  split <;> rfl

/-- The entry `getOrCreateNode` points at exists and carries the key. -/
theorem goc_get? (t : List NodeInfo) (n : Nat) :
    ∃ e, (getOrCreateNode t n).2.get? (getOrCreateNode t n).1 = some e ∧
      e.num = n :=
  findNodeIdx_get? _ _ _ (goc_findNodeIdx t n)

/-- When the stored user equals the incoming payload, `updateUser` raises
none of the three downstream effects. -/
theorem updateUser_effects_of_eq (w : World) (n : Nat) (u : User)
    (h : (((getOrCreateNode w.dev.node_db n).2.get?
        (getOrCreateNode w.dev.node_db n).1).getD zeroNodeInfo).user = u) :
    (updateUser w n u).updateGUIforNode = w.updateGUIforNode ∧
    (updateUser w n u).powerEvents = w.powerEvents ∧
    (updateUser w n u).notifyCount = w.notifyCount := by
  unfold updateUser
  rw [if_pos h]
  exact ⟨rfl, rfl, rfl⟩

/-- When the stored user differs from the incoming payload, `updateUser`
raises all three downstream effects. -/
theorem updateUser_effects_of_ne (w : World) (n : Nat) (u : User)
    (h : (((getOrCreateNode w.dev.node_db n).2.get?
        (getOrCreateNode w.dev.node_db n).1).getD zeroNodeInfo).user ≠ u) :
    (updateUser w n u).updateGUIforNode = some n ∧
    (updateUser w n u).powerEvents = w.powerEvents + 1 ∧
    (updateUser w n u).notifyCount = w.notifyCount + 1 := by
  unfold updateUser
  rw [if_neg h]
  exact ⟨rfl, rfl, rfl⟩

/-- After `updateUser` the stored user at the key equals the payload. -/
theorem storedUser_after_update (w : World) (n : Nat) (u : User) :
    (((getOrCreateNode (updateUser w n u).dev.node_db n).2.get?
        (getOrCreateNode (updateUser w n u).dev.node_db n).1).getD
      zeroNodeInfo).user = u := by
  obtain ⟨e, he, -⟩ := goc_get? w.dev.node_db n
  have hfi := goc_findNodeIdx w.dev.node_db n
  have hfi2 : findNodeIdx (updateUser w n u).dev.node_db n =
      some (getOrCreateNode w.dev.node_db n).1 := by
    rw [updateUser_node_db,
      findNodeIdx_modifyAt _ _ (fun info => { info with user := u, has_user := true })
        _ (fun a => rfl), hfi]
  have hgoc2 : getOrCreateNode (updateUser w n u).dev.node_db n =
      ((getOrCreateNode w.dev.node_db n).1, (updateUser w n u).dev.node_db) := by
    unfold getOrCreateNode
    rw [hfi2]
    rfl
  rw [hgoc2]
  simp only [updateUser_node_db, modifyAt_get?_self, he, Option.map_some',
    Option.getD_some]

/-- C6.  `updateUser` overwrites the stored user record and marks has-user
true; when the incoming payload equals the stored one it raises no
GUI-refresh flag, no power-management event and no observer notification,
while a differing payload raises all three; in particular the second of two
identical calls raises none of the effects. -/
theorem c6_updateUser (w : World) (n : Nat) (u : User) :
    (∃ rec, getNode (updateUser w n u).dev.node_db n = some rec ∧
      rec.user = u ∧ rec.has_user = true) ∧
    ((((getOrCreateNode w.dev.node_db n).2.get?
        (getOrCreateNode w.dev.node_db n).1).getD zeroNodeInfo).user = u →
      (updateUser w n u).updateGUIforNode = w.updateGUIforNode ∧
      (updateUser w n u).powerEvents = w.powerEvents ∧
      (updateUser w n u).notifyCount = w.notifyCount) ∧
    ((((getOrCreateNode w.dev.node_db n).2.get?
        (getOrCreateNode w.dev.node_db n).1).getD zeroNodeInfo).user ≠ u →
      (updateUser w n u).updateGUIforNode = some n ∧
      (updateUser w n u).powerEvents = w.powerEvents + 1 ∧
      (updateUser w n u).notifyCount = w.notifyCount + 1) ∧
    ((updateUser (updateUser w n u) n u).updateGUIforNode =
        (updateUser w n u).updateGUIforNode ∧
      (updateUser (updateUser w n u) n u).powerEvents =
        (updateUser w n u).powerEvents ∧
      (updateUser (updateUser w n u) n u).notifyCount =
        (updateUser w n u).notifyCount) := by
  refine ⟨?_, updateUser_effects_of_eq w n u, updateUser_effects_of_ne w n u,
    updateUser_effects_of_eq (updateUser w n u) n u
      (storedUser_after_update w n u)⟩
  obtain ⟨e, he, -⟩ := goc_get? w.dev.node_db n
  have hfi := goc_findNodeIdx w.dev.node_db n
  refine ⟨{ e with user := u, has_user := true }, ?_, rfl, rfl⟩
  rw [updateUser_node_db, getNode_eq_bind,
    findNodeIdx_modifyAt _ _ (fun info => { info with user := u, has_user := true })
      _ (fun a => rfl), hfi, Option.some_bind,
    modifyAt_get?_self, he, Option.map_some']

/-- Witness for C6: two identical `updateUser` calls on node 0x42 — the
first (user previously absent, payload differing from the fresh zero
record) raises the effects, the second does not. -/
theorem c6_updateUser_witness :
    (updateUser (updateUser worldZero 0x42 { zeroUser with id := "a" })
        0x42 { zeroUser with id := "a" }).powerEvents =
      (updateUser worldZero 0x42 { zeroUser with id := "a" }).powerEvents ∧
    (updateUser worldZero 0x42 { zeroUser with id := "a" }).powerEvents =
      worldZero.powerEvents + 1 :=
  ⟨(c6_updateUser worldZero 0x42 { zeroUser with id := "a" }).2.2.2.2.1,
   ((c6_updateUser worldZero 0x42 { zeroUser with id := "a" }).2.2.1
      (by decide)).2.1⟩

/-! ### C8: peer-key invariant -/

theorem validTable_modifyAt (t : List NodeInfo) (i : Nat)
    (f : NodeInfo → NodeInfo) (hf : ∀ a, (f a).num = a.num)
    (h : validTable t) : validTable (modifyAt t i f) := by
  induction t generalizing i with
  | nil => exact h
  | cons a as ih =>
    cases i with
    | zero =>
      intro r hr
      rcases List.mem_cons.mp hr with hr | hr
      · subst hr
        rw [hf a]
        exact h a (List.mem_cons_self a as)
      · exact h r (List.mem_cons_of_mem a hr)
    | succ j =>
      intro r hr
      rcases List.mem_cons.mp hr with hr | hr
      · rw [hr]
        exact h a (List.mem_cons_self a as)
      · exact ih j (fun x hx => h x (List.mem_cons_of_mem a hx)) r hr

theorem validTable_goc (t : List NodeInfo) (n : Nat)
    (hn0 : n ≠ 0) (hnb : n ≠ NODENUM_BROADCAST) (h : validTable t) :
    validTable (getOrCreateNode t n).2 := by
  unfold getOrCreateNode
  cases hf : findNodeIdx t n with
  | some i => exact h
  | none =>
    intro r hr
    rcases List.mem_append.mp hr with hr | hr
    · exact h r hr
    · rcases List.mem_singleton.mp hr with rfl
      exact ⟨hn0, hnb⟩

theorem validTable_updateUser (w : World) (n : Nat) (u : User)
    (hn0 : n ≠ 0) (hnb : n ≠ NODENUM_BROADCAST)
    (h : validTable w.dev.node_db) :
    validTable (updateUser w n u).dev.node_db := by
  rw [updateUser_node_db]
  exact validTable_modifyAt _ _ _ (fun a => rfl) (validTable_goc _ _ hn0 hnb h)

theorem validTable_updatePosition (w : World) (n : Nat) (p : Position)
    (hn0 : n ≠ 0) (hnb : n ≠ NODENUM_BROADCAST)
    (h : validTable w.dev.node_db) :
    validTable (updatePosition w n p).dev.node_db := by
  show validTable (modifyAt (getOrCreateNode w.dev.node_db n).2
    (getOrCreateNode w.dev.node_db n).1
    (fun info => { info with position := p, has_position := true }))
  exact validTable_modifyAt _ _ _ (fun a => rfl) (validTable_goc _ _ hn0 hnb h)

theorem validTable_upsertSender (w : World) (mp : MeshPacket)
    (hn0 : mp.fromNum ≠ 0) (hnb : mp.fromNum ≠ NODENUM_BROADCAST)
    (h : validTable w.dev.node_db) :
    validTable (upsertSender w mp).dev.node_db := by
  have hg := validTable_goc w.dev.node_db mp.fromNum hn0 hnb h
  have ht1 : validTable (if mp.rx_time ≠ 0 then
      modifyAt (getOrCreateNode w.dev.node_db mp.fromNum).2
        (getOrCreateNode w.dev.node_db mp.fromNum).1
        (fun info => { info with
          has_position := true,
          position := { info.position with time := mp.rx_time } })
      else (getOrCreateNode w.dev.node_db mp.fromNum).2) := by
    split
    · exact validTable_modifyAt _ _ _ (fun a => rfl) hg
    · exact hg
  exact validTable_modifyAt _
    (getOrCreateNode w.dev.node_db mp.fromNum).1
    (fun info => { info with snr := mp.rx_snr }) (fun a => rfl) ht1

theorem validTable_updateFrom (w : World) (mp : MeshPacket)
    (hn0 : mp.fromNum ≠ 0) (hnb : mp.fromNum ≠ NODENUM_BROADCAST)
    (h : validTable w.dev.node_db) :
    validTable (updateFrom w mp).dev.node_db := by
  unfold updateFrom
  cases hp : mp.payload with
  | none => exact h
  | some p =>
    have hu := validTable_upsertSender w mp hn0 hnb h
    cases p with
    | position pos => exact validTable_updatePosition _ _ _ hn0 hnb hu
    | data =>
      dsimp only
      split
      · exact hu
      · exact hu
    | user u => exact validTable_updateUser _ _ _ hn0 hnb hu
    | other => exact hu

/-- C8 (amended).  Every inserting operation — `getOrCreateNode` and the
upserts reached from `updateFrom`, `updatePosition`, `updateUser` —
preserves the invariant that no peer record is keyed 0 or the broadcast
sentinel, provided the key being inserted is itself neither 0 nor
broadcast.  (The code has no guard of its own: handing key 0 to
`getOrCreateNode` creates a record keyed 0, see the counterexample.) -/
theorem c8_validTable_preserved (w : World) (n : Nat) (u : User) (p : Position)
    (mp : MeshPacket) (hn0 : n ≠ 0) (hnb : n ≠ NODENUM_BROADCAST)
    (hm0 : mp.fromNum ≠ 0) (hmb : mp.fromNum ≠ NODENUM_BROADCAST)
    (h : validTable w.dev.node_db) :
    validTable (getOrCreateNode w.dev.node_db n).2 ∧
    validTable (updateUser w n u).dev.node_db ∧
    validTable (updatePosition w n p).dev.node_db ∧
    validTable (updateFrom w mp).dev.node_db :=
  ⟨validTable_goc _ _ hn0 hnb h, validTable_updateUser _ _ _ hn0 hnb h,
   validTable_updatePosition _ _ _ hn0 hnb h,
   validTable_updateFrom _ _ hm0 hmb h⟩

/-- Counterexample for C8 as stated: inserting key 0 into an empty table
(which satisfies the invariant) yields a table with a record keyed 0 — the
operations do not preserve the invariant unconditionally. -/
theorem c8_counterexample :
    validTable [] ∧ ¬ validTable (getOrCreateNode [] 0).2 := by
  constructor
  · intro r hr; exact absurd hr (List.not_mem_nil r)
  · intro h
    exact absurd rfl (h { zeroNodeInfo with num := 0 } (by simp [getOrCreateNode, findNodeIdx])).1

/-- Witness for C8 at a concrete state: a singleton valid table and a fresh
valid key. -/
theorem c8_validTable_preserved_witness :
    validTable (getOrCreateNode [{ zeroNodeInfo with num := 7 }] 9).2 :=
  (c8_validTable_preserved
    { worldZero with dev := { zeroDeviceState with
        node_db := [{ zeroNodeInfo with num := 7 }] } }
    9 zeroUser zeroPosition
    { fromNum := 9, toNum := 0, rx_time := 0, rx_snr := 0, payload := none }
    (by decide) (by decide) (by decide) (by decide) (by decide)).1

/-! ### C10: updateFrom on data payloads addressed elsewhere -/

/-- For a decoded data payload addressed neither to broadcast nor to us,
`updateFrom` is exactly the sender upsert — no plugin dispatch, no observer
notification, no other effect. -/
theorem updateFrom_data_elsewhere (w : World) (mp : MeshPacket)
    (hp : mp.payload = some SubPayload.data)
    (hb : mp.toNum ≠ NODENUM_BROADCAST)
    (hl : mp.toNum ≠ w.dev.my_node.my_node_num) :
    updateFrom w mp = upsertSender w mp := by
  unfold updateFrom
  rw [hp]
  dsimp only
  rw [if_neg (fun hc => hc.elim hb (fun h2 => hl h2))]

/-- The sender upsert leaves a record at the sender's key holding the
packet's SNR, and, for a nonzero receive timestamp, the has-position flag
and the timestamp. -/
theorem upsertSender_getNode (w : World) (mp : MeshPacket) :
    ∃ rec, getNode (upsertSender w mp).dev.node_db mp.fromNum = some rec ∧
      rec.snr = mp.rx_snr ∧
      (mp.rx_time ≠ 0 → rec.has_position = true ∧
        rec.position.time = mp.rx_time) := by
  obtain ⟨e, he, -⟩ := goc_get? w.dev.node_db mp.fromNum
  have hfi := goc_findNodeIdx w.dev.node_db mp.fromNum
  by_cases hrx : mp.rx_time ≠ 0
  · have hdb : (upsertSender w mp).dev.node_db =
        modifyAt (modifyAt (getOrCreateNode w.dev.node_db mp.fromNum).2
          (getOrCreateNode w.dev.node_db mp.fromNum).1
          (fun info => { info with
            has_position := true,
            position := { info.position with time := mp.rx_time } }))
          (getOrCreateNode w.dev.node_db mp.fromNum).1
          (fun info => { info with snr := mp.rx_snr }) := by
      show modifyAt (if mp.rx_time ≠ 0 then _ else _) _ _ = _
      rw [if_pos hrx]
    refine ⟨(fun info => { info with snr := mp.rx_snr })
      ((fun info => { info with
        has_position := true,
        position := { info.position with time := mp.rx_time } }) e),
      ?_, rfl, fun _ => ⟨rfl, rfl⟩⟩
    rw [hdb, getNode_eq_bind,
      findNodeIdx_modifyAt _ _ (fun info => { info with snr := mp.rx_snr }) _
        (fun a => rfl),
      findNodeIdx_modifyAt _ _
        (fun info => { info with
          has_position := true,
          position := { info.position with time := mp.rx_time } }) _
        (fun a => rfl),
      hfi, Option.some_bind, modifyAt_get?_self, modifyAt_get?_self, he,
      Option.map_some', Option.map_some']
  · have hdb : (upsertSender w mp).dev.node_db =
        modifyAt (getOrCreateNode w.dev.node_db mp.fromNum).2
          (getOrCreateNode w.dev.node_db mp.fromNum).1
          (fun info => { info with snr := mp.rx_snr }) := by
      show modifyAt (if mp.rx_time ≠ 0 then _ else _) _ _ = _
      rw [if_neg hrx]
    refine ⟨(fun info => { info with snr := mp.rx_snr }) e, ?_, rfl,
      fun hc => absurd hc hrx⟩
    rw [hdb, getNode_eq_bind,
      findNodeIdx_modifyAt _ _ (fun info => { info with snr := mp.rx_snr }) _
        (fun a => rfl),
      hfi, Option.some_bind, modifyAt_get?_self, he, Option.map_some']

theorem findNodeIdx_none_of_getNode_none (t : List NodeInfo) (n : Nat)
    (h : getNode t n = none) : findNodeIdx t n = none := by
  cases hf : findNodeIdx t n with
  | none => rfl
  | some i =>
    obtain ⟨e, he, -⟩ := findNodeIdx_get? t n i hf
    rw [getNode_eq_bind, hf, Option.some_bind, he] at h
    exact Option.noConfusion h

/-- The sender upsert does not change the table size beyond the initial
find-or-create. -/
theorem upsertSender_length (w : World) (mp : MeshPacket) :
    (upsertSender w mp).dev.node_db.length =
      (getOrCreateNode w.dev.node_db mp.fromNum).2.length := by
  show (modifyAt (if mp.rx_time ≠ 0 then _ else _) _ _).length = _
  rw [modifyAt_length]
  split
  · rw [modifyAt_length]
  · rfl

/-- C10.  For a decoded application-data payload addressed neither to
broadcast nor to the local node: the sender's record is upserted (created if
absent, growing the table by one), the link-quality value is recorded, a
nonzero receipt timestamp sets the has-position flag and the position
timestamp — yet no observer notification, no GUI-refresh flag, no
power-management event and no plugin dispatch occurs. -/
theorem c10_updateFrom_frame (w : World) (mp : MeshPacket)
    (hp : mp.payload = some SubPayload.data)
    (hb : mp.toNum ≠ NODENUM_BROADCAST)
    (hl : mp.toNum ≠ w.dev.my_node.my_node_num) :
    (∃ rec, getNode (updateFrom w mp).dev.node_db mp.fromNum = some rec ∧
      rec.snr = mp.rx_snr ∧
      (mp.rx_time ≠ 0 → rec.has_position = true ∧
        rec.position.time = mp.rx_time)) ∧
    (updateFrom w mp).notifyCount = w.notifyCount ∧
    (updateFrom w mp).updateGUIforNode = w.updateGUIforNode ∧
    (updateFrom w mp).powerEvents = w.powerEvents ∧
    (updateFrom w mp).pluginCalls = w.pluginCalls ∧
    (getNode w.dev.node_db mp.fromNum = none →
      (updateFrom w mp).dev.node_db.length = w.dev.node_db.length + 1) := by
  rw [updateFrom_data_elsewhere w mp hp hb hl]
  refine ⟨upsertSender_getNode w mp, rfl, rfl, rfl, rfl, fun habs => ?_⟩
  rw [upsertSender_length]
  unfold getOrCreateNode
  rw [findNodeIdx_none_of_getNode_none _ _ habs]
  simp

/-- Witness for C10 at a concrete packet from node 9 to node 5 (local node
number 4), with a nonzero receive timestamp. -/
theorem c10_updateFrom_frame_witness :
    (updateFrom { worldZero with dev := { zeroDeviceState with
        my_node := { zeroMyNodeInfo with my_node_num := 4 } } }
      { fromNum := 9, toNum := 5, rx_time := 77, rx_snr := 3,
        payload := some SubPayload.data }).notifyCount =
      worldZero.notifyCount ∧
    (updateFrom { worldZero with dev := { zeroDeviceState with
        my_node := { zeroMyNodeInfo with my_node_num := 4 } } }
      { fromNum := 9, toNum := 5, rx_time := 77, rx_snr := 3,
        payload := some SubPayload.data }).dev.node_db.length =
      zeroDeviceState.node_db.length + 1 :=
  ⟨(c10_updateFrom_frame _ _ rfl (by decide) (by decide)).2.1,
   (c10_updateFrom_frame _ _ rfl (by decide) (by decide)).2.2.2.2.2 rfl⟩

/-! ### C9: getNumOnlineNodes -/

/-- The source liveness test agrees pointwise with the amended formula: the
wrapped 32-bit difference reinterpreted as signed and clamped below at 0. -/
theorem sinceLastSeen_spec_iff (now : Nat) (r : NodeInfo) :
    (sinceLastSeen now r < NUM_ONLINE_SECS ↔
      sinceLastSeenSpec now r.position.time < 120) := by
  unfold sinceLastSeen sinceLastSeenSpec NUM_ONLINE_SECS
  dsimp only
  by_cases hd : (now % 2 ^ 32 + 2 ^ 32 - r.position.time % 2 ^ 32) % 2 ^ 32 < 2 ^ 31
  · rw [if_pos hd, if_pos hd, max_eq_right (Int.natCast_nonneg _)]
    exact ⟨fun h => by exact_mod_cast h, fun h => by exact_mod_cast h⟩
  · rw [if_neg hd, if_neg hd]
    have hlt : (now % 2 ^ 32 + 2 ^ 32 - r.position.time % 2 ^ 32) % 2 ^ 32 < 2 ^ 32 :=
      Nat.mod_lt _ (by norm_num)
    rw [max_eq_left (by
      have h2 : (((now % 2 ^ 32 + 2 ^ 32 - r.position.time % 2 ^ 32) % 2 ^ 32 : Nat) : Int)
          < 2 ^ 32 := by exact_mod_cast hlt
      omega)]
    norm_num

/-- C9 (amended).  `getNumOnlineNodes` counts the records whose wrapped
32-bit elapsed time, reinterpreted as a signed 32-bit value and clamped
below at zero, is under 120 seconds.  A record whose timestamp is ahead of
the clock counts as online exactly when it is ahead by at most `2^31` (the
wrapped difference then shows up negative and is clamped to 0); in the
normal range (timestamp at most `2^31 - 1` behind the clock) the elapsed
time is the plain difference. -/
theorem c9_onlineCount (now : Nat) (t : List NodeInfo) :
    getNumOnlineNodes now t =
      (t.filter (fun r => sinceLastSeenSpec now r.position.time < 120)).length ∧
    (∀ r : NodeInfo, now < 2 ^ 32 → r.position.time < 2 ^ 32 →
      now < r.position.time → r.position.time - now ≤ 2 ^ 31 →
      sinceLastSeen now r = 0) ∧
    (∀ r : NodeInfo, now < 2 ^ 32 → r.position.time < 2 ^ 32 →
      r.position.time ≤ now → now - r.position.time < 2 ^ 31 →
      sinceLastSeen now r = now - r.position.time) := by
  refine ⟨?_, ?_, ?_⟩
  · unfold getNumOnlineNodes
    congr 1
    apply List.filter_congr
    intro r _
    exact decide_eq_decide.mpr (sinceLastSeen_spec_iff now r)
  · intro r h1 h2 h3 h4
    unfold sinceLastSeen
    rw [Nat.mod_eq_of_lt h1, Nat.mod_eq_of_lt h2]
    rw [Nat.mod_eq_of_lt (show now + 2 ^ 32 - r.position.time < 2 ^ 32 by omega)]
    rw [if_neg (by omega)]
  · intro r h1 h2 h3 h4
    unfold sinceLastSeen
    rw [Nat.mod_eq_of_lt h1, Nat.mod_eq_of_lt h2]
    rw [show now + 2 ^ 32 - r.position.time =
      now - r.position.time + 2 ^ 32 by omega]
    rw [Nat.add_mod_right]
    rw [Nat.mod_eq_of_lt (show now - r.position.time < 2 ^ 32 by omega)]
    rw [if_pos h4]

/-- Counterexample for C9 as stated: with `now = 2^31` and one record whose
timestamp is 0, the code clamps the wrapped difference (it appears as the
negative signed value `-2^31`) and counts the record online, while the
claim's integer formula `max(0, now - timestamp) = 2^31` says offline; and
a record whose timestamp is `2^31 + 1` ahead of `now = 0` is counted
offline by the code although the claim says any ahead-of-clock record
counts online. -/
theorem c9_counterexample :
    getNumOnlineNodes (2 ^ 31) [zeroNodeInfo] = 1 ∧
    specOnlineCount (2 ^ 31) [zeroNodeInfo] = 0 ∧
    getNumOnlineNodes 0 [{ zeroNodeInfo with
      position := { zeroPosition with time := 2 ^ 31 + 1 } }] = 0 := by
  refine ⟨by decide, by decide, by decide⟩

/-- Witness for C9 at concrete inputs: a just-ahead-of-clock record counts
online, a normally-aged record reports its age. -/
theorem c9_onlineCount_witness :
    sinceLastSeen 100 { zeroNodeInfo with
      position := { zeroPosition with time := 130 } } = 0 ∧
    sinceLastSeen 100 { zeroNodeInfo with
      position := { zeroPosition with time := 70 } } = 100 - 70 :=
  ⟨(c9_onlineCount 100 []).2.1 _ (by norm_num) (by norm_num) (by norm_num)
      (by norm_num),
   (c9_onlineCount 100 []).2.2 _ (by norm_num) (by norm_num) (by norm_num)
      (by norm_num)⟩

/-! ### C2: load fallback to synthesized defaults -/

/-- The provisional node number `installDefaultDeviceState` picks: the
MAC-derived seed clamped away from the broadcast sentinel and the reserved
low range (the freshly wiped catalog is empty, so the collision loop
accepts the seed at once). -/
def pickedNum (env : Env) : Nat :=
  if macSeed env.mac = NODENUM_BROADCAST ∨ macSeed env.mac < NUM_RESERVED
  then NUM_RESERVED
  else macSeed env.mac

/-- The synthesized-defaults root record, before the region restore: the
closed form of what `installDefaultDeviceState` writes into `devicestate`. -/
def defaultDevCore (env : Env) : DeviceState :=
  { version := 0
    no_save := false
    has_my_node := true
    has_radio := true
    has_owner := true
    receive_queue_count := 0
    my_node :=
      { my_node_num := pickedNum env
        has_gps := false
        region := ""
        message_timeout_msec := env.floodExpire }
    radio :=
      { has_channel_settings := true
        has_preferences := true
        channel_settings :=
          { psk := [1]
            name := ""
            modem_config := ModemConfig_Bw125Cr48Sf4096
            tx_power := 0
            bandwidth := 0 }
        preferences :=
          { region := 0
            factory_reset := false
            screen_on_secs := 0
            wait_bluetooth_secs := 0
            position_broadcast_secs := 0
            ls_secs := 0 } }
    owner :=
      { id := "!" ++ String.join ((List.range 6).map
          (fun i => hex2 (env.mac.getD i 0)))
        long_name := "Unknown " ++ hex2 (env.mac.getD 4 0) ++
          hex2 (env.mac.getD 5 0)
        short_name := "?" ++ hex2U (pickedNum env % 256)
        macaddr := env.mac }
    node_db := [] }

/-- The whole world `installDefaultDeviceState` produces before the region
restore: the defaults record plus the updated globals (generation bumped,
channel name and live key derived, MAC cached, key published), with the
effect counters carried over. -/
def coreWorld (env : Env) (w : World) : World :=
  { dev := defaultDevCore env
    ourMacAddr := env.mac
    channelName := "LongSlow"
    activePSK := defaultpsk
    radioGeneration := w.radioGeneration + 1
    cryptoKey := defaultpsk
    updateGUIforNode := w.updateGUIforNode
    powerEvents := w.powerEvents
    notifyCount := w.notifyCount
    pluginCalls := w.pluginCalls }

/-- The region-restore rule on the root record alone. -/
def patchRegion (oldCode : Nat) (oldStr : String) (d : DeviceState) : DeviceState :=
  let d1 :=
    if oldCode ≠ RegionCode_Unset then
      { d with radio := { d.radio with
          preferences := { d.radio.preferences with region := oldCode } } }
    else d
  if oldStr ≠ "" then { d1 with my_node := { d1.my_node with region := oldStr } }
  else d1

/-- Closed form of `installDefaultDeviceState`: it always succeeds (the
wiped catalog is empty, so the node-number loop never retries) and yields
the core defaults with the caller's region fields restored. -/
theorem installDefault_closed_form (env : Env) (fuel : Nat) (w : World) :
    installDefaultDeviceState env fuel w =
      some (restoreRegion w.dev.radio.preferences.region w.dev.my_node.region
        (coreWorld env w)) := by
  cases fuel <;> rfl

/-- `restoreRegion` acts on the root record as `patchRegion`. -/
theorem restoreRegion_dev (c : Nat) (s : String) (w : World) :
    (restoreRegion c s w).dev = patchRegion c s w.dev := by
  unfold restoreRegion patchRegion
  by_cases h1 : c ≠ RegionCode_Unset <;> by_cases h2 : s ≠ "" <;> simp [h1, h2]

/-- The root record synthesized by `installDefaultDeviceState` is exactly
the defaults record with the previous region code and region string
patched back in. -/
theorem installDefault_dev (env : Env) (fuel : Nat) (w : World) :
    (installDefaultDeviceState env fuel w).map World.dev =
      some (patchRegion w.dev.radio.preferences.region w.dev.my_node.region
        (defaultDevCore env)) := by
  rw [installDefault_closed_form, Option.map_some', restoreRegion_dev]
  rfl

/-- C2.  When the persisted blob fails structural decode, or decodes with a
`schemaVersion` below the minimum supported version, `loadFromDisk` hands
the in-memory state to `installDefaultDeviceState`; the resulting root
record is exactly the synthesized-defaults record with only the preserved
region code and region string patched in — no other decoded data survives. -/
theorem c2_loadFallback (env : Env) (fuel : Nat)
    (decode : Blob → DeviceState × Bool) (fs : Fs) (w : World) (blob : Blob)
    (d : DeviceState) (ok : Bool)
    (hfs : fs.pref = some blob) (hdec : decode blob = (d, ok))
    (hbad : ok = false ∨ d.version < DEVICESTATE_MIN_VER) :
    loadFromDisk env fuel decode fs w =
      installDefaultDeviceState env fuel { w with dev := d } ∧
    (loadFromDisk env fuel decode fs w).map World.dev =
      some (patchRegion d.radio.preferences.region d.my_node.region
        (defaultDevCore env)) := by
  have h1 : loadFromDisk env fuel decode fs w =
      installDefaultDeviceState env fuel { w with dev := d } := by
    unfold loadFromDisk
    rw [hfs]
    rcases hbad with h | h
    · simp [hdec, h]
    · cases hok : ok with
      | false => simp [hdec, hok]
      | true => simp [hdec, hok, h]
  refine ⟨h1, ?_⟩
  rw [h1, installDefault_dev]

/-- A decode oracle returning a stale record (schema version 3, region 5). -/
def staleDecode : Blob → DeviceState × Bool :=
  fun _ => ({ zeroDeviceState with
    version := 3,
    radio := { zeroRadioConfig with
      preferences := { zeroPrefs with region := 5 } } }, true)

/-- Witness for C2 at a concrete corrupted blob (decode failure) and a
concrete stale blob (version 3, below the minimum 11): both load results
fall back to the synthesized defaults, the stale blob's region preserved. -/
theorem c2_loadFallback_witness :
    loadFromDisk envEx 0 (fun _ => (zeroDeviceState, false)) fsEx worldZero =
      installDefaultDeviceState envEx 0 { worldZero with dev := zeroDeviceState } ∧
    (loadFromDisk envEx 0 staleDecode fsEx worldZero).map World.dev =
      some (patchRegion 5 "" (defaultDevCore envEx)) :=
  ⟨(c2_loadFallback envEx 0 (fun _ => (zeroDeviceState, false)) fsEx worldZero
      [1, 2, 3] zeroDeviceState false rfl rfl (Or.inl rfl)).1,
   (c2_loadFallback envEx 0 staleDecode fsEx worldZero [1, 2, 3]
      ({ zeroDeviceState with
        version := 3,
        radio := { zeroRadioConfig with
          preferences := { zeroPrefs with region := 5 } } }) true rfl rfl
      (Or.inr (by decide))).2⟩
